import Mathlib

/-!
Shallow embedding of the candidate identity-resolution and match-scoring
pipeline of `resume_matcher_app.py`.  Python strings are modelled as Lean
`String` (lists of unicode code points, matching Python semantics for the
ASCII-plus-emoji texts this program manipulates); the external OpenAI chat
service is modelled as an oracle `Nat → String → String → Option String`
taking the attempt index, the model identifier and the prompt, and returning
`some content` for a successful call and `none` for a raised exception.
-/

/-! ## Python string primitives -/

/-- Python whitespace for `str.strip` / `str.split` / regex `\s`
(ASCII subset, the only whitespace occurring in this pipeline). -/
def isPySpace (c : Char) : Bool :=
  c = ' ' || c = '\t' || c = '\n' || c = '\r' || c = '\x0b' || c = '\x0c'

/-- ASCII digit, regex `\d` over the texts in scope. -/
def isDigitC (c : Char) : Bool := '0' ≤ c && c ≤ '9'

/-- ASCII letter. -/
def isAlphaC (c : Char) : Bool := ('a' ≤ c && c ≤ 'z') || ('A' ≤ c && c ≤ 'Z')

/-- Regex word character (`\b` boundaries); ASCII `[A-Za-z0-9_]`, which is
what `\w` means on the ASCII-plus-symbol texts this program handles. -/
def isWordC (c : Char) : Bool := isAlphaC c || isDigitC c || c = '_'

/-- Plain list-of-characters prefix test. -/
def isPrefixL : List Char → List Char → Bool
  | [], _ => true
  | _ :: _, [] => false
  | a :: as, b :: bs => a == b && isPrefixL as bs

/-- Case-insensitive prefix test (pattern given already lowercased),
modelling a `(?i)` literal. -/
def ciPrefixL : List Char → List Char → Bool
  | [], _ => true
  | _ :: _, [] => false
  | p :: ps, c :: cs => c.toLower == p && ciPrefixL ps cs

/-- Substring containment, Python `needle in hay`. -/
def hasInfixL : List Char → List Char → Bool
  | hay, needle =>
    match hay with
    | [] => needle.isEmpty
    | _ :: rest => isPrefixL needle hay || hasInfixL rest needle

/-- String-level substring containment, Python `needle in hay`. -/
def hasInfixS (hay needle : String) : Bool := hasInfixL hay.data needle.data

/-- Python `str.lower` (ASCII effect; non-ASCII symbols in scope are uncased). -/
def pyLowerS (s : String) : String := ⟨s.data.map Char.toLower⟩

/-- Python `str.strip` on characters: drop leading and trailing whitespace. -/
def pyStripL (l : List Char) : List Char :=
  ((l.dropWhile isPySpace).reverse.dropWhile isPySpace).reverse

/-- Python `str.strip`. -/
def pyStripS (s : String) : String := ⟨pyStripL s.data⟩

/-- Accumulator worker for no-argument `str.split`. -/
def pySplitWSAux : List Char → List Char → List (List Char)
  | [], acc => if acc.isEmpty then [] else [acc.reverse]
  | c :: rest, acc =>
    if isPySpace c then
      if acc.isEmpty then pySplitWSAux rest [] else acc.reverse :: pySplitWSAux rest []
    else pySplitWSAux rest (c :: acc)

/-- Python `str.split()` with no argument: whitespace-separated tokens,
empties dropped. -/
def pySplitWS (l : List Char) : List (List Char) := pySplitWSAux l []

/-- Title-case worker: `prev` records whether the previous character was a
letter; a letter after a non-letter is uppercased, a letter after a letter is
lowercased, everything else is left unchanged (Python `str.title`). -/
def pyTitleAux : Bool → List Char → List Char
  | _, [] => []
  | prev, c :: rest =>
    (if isAlphaC c then (if prev then c.toLower else c.toUpper) else c)
      :: pyTitleAux (isAlphaC c) rest

/-- Python `str.title`. -/
def pyTitleS (s : String) : String := ⟨pyTitleAux false s.data⟩

/-- Line terminator for `str.splitlines` (the `\r\n` pair is handled
separately by the worker). -/
def isLineTerm (c : Char) : Bool :=
  c = '\n' || c = '\r' || c = '\x0b' || c = '\x0c' ||
  c = '\x1c' || c = '\x1d' || c = '\x1e' || c = '\x85' ||
  c = '\u2028' || c = '\u2029'

/-- Accumulator worker for `str.splitlines`. -/
def pySplitlinesAux : List Char → List Char → List (List Char)
  | [], acc => if acc.isEmpty then [] else [acc.reverse]
  | '\r' :: '\n' :: rest, acc => acc.reverse :: pySplitlinesAux rest []
  | c :: rest, acc =>
    if isLineTerm c then acc.reverse :: pySplitlinesAux rest []
    else pySplitlinesAux rest (c :: acc)

/-- Python `str.splitlines`. -/
def pySplitlines (s : String) : List String :=
  (pySplitlinesAux s.data []).map String.mk

/-- Python `"\n".join`. -/
def joinWithNewline : List String → String
  | [] => ""
  | [s] => s
  | s :: rest => s ++ "\n" ++ joinWithNewline rest

/-- Python slicing `txt[:n]` by code points. -/
def pyTake (s : String) (n : Nat) : String := ⟨s.data.take n⟩

/-- Numeric value of a digit run. -/
def digitsToNat (l : List Char) : Nat :=
  l.foldl (fun n c => 10 * n + (c.toNat - '0'.toNat)) 0

/-! ## The score regex

`SCORE_RE = re.compile(r"(?i)\bscore\b[^0-9]{0,12}(\d{1,3})\s*%")`, used with
`re.search` (leftmost match).  The matcher below reproduces the backtracking
semantics of this concrete pattern: at a candidate start position with a word
boundary before and after the literal `score`, the greedy `[^0-9]{0,12}` can
only ever stop at the end of the maximal non-digit run (every shorter stop
leaves a non-digit where `\d` must match), which must therefore be at most 12
long; the greedy `\d{1,3}` backtracks from three digits down to one; and the
greedy `\s*` never needs to backtrack because no whitespace character can
satisfy the following `%`. -/

/-- One quantifier alternative for `(\d{1,3})\s*%`: take exactly `d` digits
from the digit run, then `\s*` and `%`. -/
def scoreTryDigits (ds l1 : List Char) (d : Nat) : Option Nat :=
  if d ≤ ds.length then
    match (l1.drop d).dropWhile isPySpace with
    | '%' :: _ => some (digitsToNat (ds.take d))
    | _ => none
  else none

/-- Match `[^0-9]{0,12}(\d{1,3})\s*%` at the position just after the literal
`score`. -/
def scoreMatchAfter (l : List Char) : Option Nat :=
  let gap := l.takeWhile (fun c => !(isDigitC c))
  if gap.length ≤ 12 then
    let l1 := l.drop gap.length
    let ds := l1.takeWhile isDigitC
    (scoreTryDigits ds l1 3 <|> scoreTryDigits ds l1 2) <|> scoreTryDigits ds l1 1
  else none

/-- Leftmost-search scan for `SCORE_RE`; `prevWord` records whether the
character before the current position is a word character (for `\b`). -/
def scoreSearchAux : Bool → List Char → Option Nat
  | _, [] => none
  | prevWord, c :: rest =>
    (if !prevWord && ciPrefixL ['s', 'c', 'o', 'r', 'e'] (c :: rest) &&
        (match (c :: rest).drop 5 with
         | [] => true
         | d :: _ => !(isWordC d)) then
      scoreMatchAfter ((c :: rest).drop 5)
    else none)
    <|> scoreSearchAux (isWordC c) rest

/-- `SCORE_RE.search(raw)`: the captured 1–3 digit group of the first match,
as a number. -/
def scoreSearchS (raw : String) : Option Nat := scoreSearchAux false raw.data

/-! ## Score parsing and tier classification (source lines 248–249, 274–279) -/

/-- Recommendation tier derived from the score in the results render loop. -/
inductive Tier
  | Reject
  | Caution
  | Strong
deriving DecidableEq, Repr

/-- The tier thresholds of the render loop: `score < 50` reject,
`50 ≤ score < 70` caution, `70 ≤ score` strong. -/
def tierOf (score : Nat) : Tier :=
  if score < 50 then Tier.Reject
  else if score < 70 then Tier.Caution
  else Tier.Strong

/-- Source line 249: `score = max(0, min(100, int(m.group(1)))) if m else 0`.
The captured group is a digit run, hence non-negative, so the score is a
natural number and `max 0` is the identity. -/
def parseScoreNum (raw : String) : Nat :=
  match scoreSearchS raw with
  | some n => max 0 (min 100 n)
  | none => 0

/-- The score/tier pair the app derives from a raw model response. -/
def parseScore (raw : String) : Nat × Tier :=
  (parseScoreNum raw, tierOf (parseScoreNum raw))

/-! ## The candidate-name table regex

`re.findall(r"(?i)Candidate Name\s*[\t:–-]*\s*(.+)", text)`: non-overlapping
leftmost matches, each yielding the capture group `(.+)` (greedy, `.` not
matching a newline).  After the case-insensitive literal, the greedy chain
`\s*[\t:–-]*\s*` either stops at the first character that is neither
whitespace nor a separator — which cannot be a newline, so `(.+)` captures the
rest of that line — or consumes the entire remaining input, in which case
backtracking hands the single last non-newline character of the consumed
region back to `(.+)` (every prefix of the consumed region still has the
shape `\s*[\t:–-]*\s*`, and all characters after that one are newlines). -/

/-- Separator class `[\t:–-]` of the candidate-name label regex. -/
def isSepCN (c : Char) : Bool := c = '\t' || c = ':' || c = '–' || c = '-'

/-- Match `\s*[\t:–-]*\s*(.+)` at the position just after the literal;
returns the capture and the input remaining after the match. -/
def matchCNTail (l : List Char) : Option (List Char × List Char) :=
  let a := l.dropWhile isPySpace
  let b := a.dropWhile isSepCN
  let c := b.dropWhile isPySpace
  match c with
  | _ :: _ =>
    let cap := c.takeWhile (fun d => !(d == '\n'))
    some (cap, c.drop cap.length)
  | [] =>
    match l.reverse.dropWhile (fun d => d == '\n') with
    | x :: _ => some ([x], (l.reverse.takeWhile (fun d => d == '\n')).reverse)
    | [] => none

/-- The case-insensitive literal `Candidate Name` (14 characters). -/
def cnLit : List Char := ['c', 'a', 'n', 'd', 'i', 'd', 'a', 't', 'e', ' ', 'n', 'a', 'm', 'e']

/-- Scan worker for `re.findall` of the candidate-name regex.  The fuel
starts at the input length; every step either advances one character or
consumes a whole match (at least the 14-character literal), so fuel never
runs out before the input does. -/
def cnFindallAux : Nat → List Char → List (List Char)
  | 0, _ => []
  | _ + 1, [] => []
  | fuel + 1, c :: rest =>
    if ciPrefixL cnLit (c :: rest) then
      match matchCNTail ((c :: rest).drop 14) with
      | some (cap, after) => cap :: cnFindallAux fuel after
      | none => cnFindallAux fuel rest
    else cnFindallAux fuel rest

/-- `re.findall(r"(?i)Candidate Name\s*[\t:–-]*\s*(.+)", text)`. -/
def cnFindall (l : List Char) : List (List Char) := cnFindallAux l.length l

/-- Loop body of `extract_candidate_name_from_table`: first captured value
whose stripped form has 2–4 whitespace-separated tokens, title-cased. -/
def acceptName : List (List Char) → Option String
  | [] => none
  | m :: rest =>
    if 2 ≤ (pySplitWS (pyStripS ⟨m⟩).data).length && (pySplitWS (pyStripS ⟨m⟩).data).length ≤ 4 then
      some (pyTitleS (pyStripS ⟨m⟩))
    else acceptName rest

/-- Source `extract_candidate_name_from_table`. -/
def extract_candidate_name_from_table (text : String) : Option String :=
  acceptName (cnFindall text.data)

/-! ## The footer regex

`re.search(r"(?i)Resume of\s+([A-Z][a-z]+(?:\s+[A-Z][a-z]+){1,2})", text)`.
With `(?i)` both character classes mean "any ASCII letter", so a word is a
maximal letter run of length at least two (shortening the greedy `[a-z]+`
never helps: the following `\s+` or end of group cannot match a letter).
The group `(?:\s+[A-Z][a-z]+){1,2}` is greedy: two extra words if possible,
else one, else the match fails at this position. -/

/-- One `\s+[A-Z][a-z]+` repetition: whitespace then a two-or-more letter
word; returns the matched characters and the rest. -/
def footerExtra (l : List Char) : Option (List Char × List Char) :=
  let ws := l.takeWhile isPySpace
  if ws.isEmpty then none
  else
    let l1 := l.drop ws.length
    let w := l1.takeWhile isAlphaC
    if 2 ≤ w.length then some (ws ++ w, l1.drop w.length) else none

/-- Match `\s+([A-Z][a-z]+(?:\s+[A-Z][a-z]+){1,2})` just after the literal
`Resume of`; returns the capture group. -/
def footerMatchAt (l : List Char) : Option (List Char) :=
  let ws := l.takeWhile isPySpace
  if ws.isEmpty then none
  else
    let l1 := l.drop ws.length
    let w1 := l1.takeWhile isAlphaC
    if w1.length < 2 then none
    else
      match footerExtra (l1.drop w1.length) with
      | none => none
      | some (e2, r2) =>
        match footerExtra r2 with
        | some (e3, _) => some (w1 ++ e2 ++ e3)
        | none => some (w1 ++ e2)

/-- The case-insensitive literal `Resume of` (9 characters). -/
def rofLit : List Char := ['r', 'e', 's', 'u', 'm', 'e', ' ', 'o', 'f']

/-- Leftmost-search scan for the footer regex. -/
def footerSearchAux : List Char → Option (List Char)
  | [] => none
  | c :: rest =>
    (if ciPrefixL rofLit (c :: rest) then footerMatchAt ((c :: rest).drop 9) else none)
    <|> footerSearchAux rest

/-- Source `extract_candidate_name_from_footer`:
`m.group(1).strip().title()` on a search hit, else `None`. -/
def extract_candidate_name_from_footer (text : String) : Option String :=
  match footerSearchAux text.data with
  | some cap => some (pyTitleS (pyStripS ⟨cap⟩))
  | none => none

/-! ## The email regex

`EMAIL_RE = re.compile(r"[A-Za-z0-9._%+-]+@[A-Za-z0-9.-]+\.[A-Za-z]{2,}")`,
used with `re.search`.  The local part and the `@` admit no useful
backtracking (no local character equals `@`); within the maximal domain-class
run, the greedy `[A-Za-z0-9.-]+\.` backtracks to the last `.` that is
preceded by at least one domain character and followed by at least two
letters. -/

/-- Local-part class `[A-Za-z0-9._%+-]`. -/
def isLocalC (c : Char) : Bool :=
  isAlphaC c || isDigitC c || c = '.' || c = '_' || c = '%' || c = '+' || c = '-'

/-- Domain class `[A-Za-z0-9.-]`. -/
def isDomC (c : Char) : Bool := isAlphaC c || isDigitC c || c = '.' || c = '-'

/-- Split the maximal domain-class run at the last feasible dot; returns the
matched `[A-Za-z0-9.-]+\.[A-Za-z]{2,}` characters. -/
def emailDotSplit (dom : List Char) : Option (List Char) :=
  let feasible := (List.range dom.length).filter (fun p =>
    decide (1 ≤ p) && (dom.getD p ' ' == '.') &&
    decide (2 ≤ ((dom.drop (p + 1)).takeWhile isAlphaC).length))
  match feasible.getLast? with
  | some p => some (dom.take p ++ '.' :: (dom.drop (p + 1)).takeWhile isAlphaC)
  | none => none

/-- Match the email regex anchored at the current position. -/
def emailMatchAt (l : List Char) : Option (List Char) :=
  let loc := l.takeWhile isLocalC
  if loc.isEmpty then none
  else
    match l.drop loc.length with
    | '@' :: rest =>
      (match emailDotSplit (rest.takeWhile isDomC) with
       | some d => some (loc ++ '@' :: d)
       | none => none)
    | _ => none

/-- Leftmost-search scan for the email regex. -/
def emailSearchAux : List Char → Option (List Char)
  | [] => none
  | c :: rest => emailMatchAt (c :: rest) <|> emailSearchAux rest

/-- Source `extract_email`: first match or the `"Not found"` sentinel. -/
def extract_email (text : String) : String :=
  match emailSearchAux text.data with
  | some m => ⟨m⟩
  | none => "Not found"

/-! ## The external chat service and `call_gpt_with_fallback` -/

/-- The external text-generation service: attempt index, model identifier and
prompt map to `some content` (a successful response) or `none` (a raised
exception).  The attempt index distinguishes the two `gpt-4o-mini` entries of
the fallback list. -/
abbrev GptOracle := Nat → String → String → Option String

/-- Source line 36: the ordered fallback model list. -/
def models : List String := ["gpt-4o", "gpt-4o-mini", "gpt-4o-mini"]

/-- Retry loop of `call_gpt_with_fallback`: first successful response is
returned `.strip()`-ped; when the model list is exhausted the literal failure
marker is returned instead of raising.  The `st.error` UI call and the
`time.sleep` backoff have no effect on the returned value and are not
modelled. -/
def callGptAux (g : GptOracle) (prompt : String) : Nat → List String → String
  | _, [] => "⚠️ GPT processing failed."
  | attempt, model :: rest =>
    match g attempt model prompt with
    | some content => pyStripS content
    | none => callGptAux g prompt (attempt + 1) rest

/-- Source `call_gpt_with_fallback`. -/
def call_gpt_with_fallback (g : GptOracle) (prompt : String) : String :=
  callGptAux g prompt 0 models

/-- Source `trim`: hard character cap (`max_chars` fixed at its default
12000); `None`/empty input yields the empty string. -/
def trim (txt : String) : String := if txt = "" then "" else pyTake txt 12000

/-! ## GPT-backed name extraction and the cascade -/

/-- The prompt built inside `improved_extract_candidate_name` from the first
50 lines of the resume text. -/
def namePrompt (text : String) : String :=
  "\nExtract the candidate\x27s full name ONLY from the resume text below.\nReturn only the name; if unsure, return: Name Not Found\n\nResume:\n"
  ++ joinWithNewline ((pySplitlines text).take 50) ++ "\n"

/-- Source line 140: the suspicious-word list of the GPT name filter. -/
def suspiciousWords : List String :=
  ["java", "python", "developer", "resume", "engineer", "servers", "experience", "summary"]

/-- The acceptance filter applied to the GPT-returned name: reject empty
names, names of more than five tokens, names containing a suspicious word, an
email sigil, or the literal refusal; otherwise strip and title-case. -/
def gptNameFilter (name : String) : String :=
  if name == "" || decide (5 < (pySplitWS name.data).length) ||
     suspiciousWords.any (fun w => hasInfixS (pyLowerS name) w) ||
     hasInfixS name "@" ||
     isPrefixL "name not found".data (pyLowerS name).data then
    "Name Not Found"
  else pyTitleS (pyStripS name)

set_option linter.unusedVariables false in
/-- Source `improved_extract_candidate_name`: GPT last resort on a trimmed
header slice, filtered; note that the `filename` parameter is accepted but
never used by the source. -/
def improved_extract_candidate_name (g : GptOracle) (text filename : String) : String :=
  gptNameFilter (call_gpt_with_fallback g (namePrompt text))

/-- Python `a or b` on an optional string and a string: `None` and the empty
string are falsy. -/
def pyOr (a : Option String) (b : String) : String :=
  match a with
  | some s => if s == "" then b else s
  | none => b

/-- Source `extract_candidate_name`: the strategy cascade
table → footer → GPT, chained with Python `or`. -/
def extract_candidate_name (g : GptOracle) (text filename : String) : String :=
  pyOr (extract_candidate_name_from_table text)
    (pyOr (extract_candidate_name_from_footer text)
      (improved_extract_candidate_name g text filename))

/-! ## The scoring prompt and orchestrator -/

/-- The exact block-format prompt of `compare_resume`. -/
def comparePrompt (jd_text resume_text candidate_name : String) : String :=
  "\nCompare this resume to the JD and reply ONLY in this exact format:\n\n📛 "
  ++ candidate_name
  ++ "\n✅ Score: <0–100>%\n🔍 Reason:\n- 1–5 short bullets on role fit, core skills/tools (Selenium, SQL/Oracle, Linux, CI/CD), domains, deployments/logs\n\n<If score < 70 include this exact line>\n⚠️ This candidate may not meet the requirements.\n\nJD:\n"
  ++ trim jd_text ++ "\n\nResume:\n" ++ trim resume_text ++ "\n"

/-- Source `compare_resume`. -/
def compare_resume (g : GptOracle) (jd_text resume_text candidate_name : String) : String :=
  call_gpt_with_fallback g (comparePrompt jd_text resume_text candidate_name)

/-- One uploaded document as the core consumes it: identifier (filename) and
extracted text (the byte-level readers are external collaborators). -/
structure Document where
  name : String
  text : String
deriving DecidableEq, Repr

/-- One entry of `st.session_state["results"]`. -/
structure CandidateRecord where
  correct_name : String
  email : String
  score : Nat
  result : String
  resume_text : String
deriving DecidableEq, Repr

/-- One entry of `st.session_state["summary"]`. -/
structure SummaryRow where
  candidate_name : String
  email : String
  score : Nat
deriving DecidableEq, Repr

/-- The session state owned by the orchestrator: the result accumulator, the
processed-identifier set (a list queried by membership) and the summary rows. -/
structure SessionState where
  results : List CandidateRecord
  processed_resumes : List String
  summary : List SummaryRow
deriving DecidableEq, Repr

/-- Fresh session state. -/
def initialState : SessionState := ⟨[], [], []⟩

/-- One iteration of the batch loop (source lines 233–264): skip documents
whose identifier was already processed, skip documents with empty extracted
text, otherwise resolve identity, request the assessment, parse the score and
append the record, the identifier and the summary row. -/
def processDoc (g : GptOracle) (jd_text : String) (st : SessionState) (d : Document) :
    SessionState :=
  if d.name ∈ st.processed_resumes then st
  else if d.text = "" then st
  else
    let correct_name := extract_candidate_name g d.text d.name
    let correct_email := extract_email d.text
    let result := compare_resume g jd_text d.text correct_name
    let score := parseScoreNum result
    { results := st.results ++ [⟨correct_name, correct_email, score, result, d.text⟩],
      processed_resumes := d.name :: st.processed_resumes,
      summary := st.summary ++ [⟨correct_name, correct_email, score⟩] }

/-- The batch loop over the uploaded resumes, in input order. -/
def processBatch (g : GptOracle) (jd_text : String) (st : SessionState)
    (docs : List Document) : SessionState :=
  docs.foldl (processDoc g jd_text) st

/-- The always-failing service: every attempt raises. -/
def oracleDown : GptOracle := fun _ _ _ => none

/-! ## Helper lemmas -/

/-- A string is empty exactly when its character list is. -/
theorem string_eq_empty_iff (s : String) : s = "" ↔ s.data = [] := by
  constructor
  · intro h
    rw [h]
  · intro h
    cases s with
    | mk d =>
      cases h
      rfl

/-- Title-casing never changes emptiness. -/
theorem pyTitleAux_eq_nil_iff (b : Bool) (l : List Char) :
    pyTitleAux b l = [] ↔ l = [] := by
  cases l with
  | nil => simp [pyTitleAux]
  | cons c rest => simp [pyTitleAux]

/-- Title-casing a non-empty string yields a non-empty string. -/
theorem pyTitleS_ne_empty (s : String) (h : s ≠ "") : pyTitleS s ≠ "" := by
  intro hc
  apply h
  rw [string_eq_empty_iff] at hc ⊢
  exact (pyTitleAux_eq_nil_iff false s.data).mp hc

/-- Head of a `dropWhile` residue falsifies the predicate. -/
theorem dropWhile_head_false (p : Char → Bool) (l : List Char) :
    l.dropWhile p = [] ∨ ∃ c t, l.dropWhile p = c :: t ∧ p c = false := by
  induction l with
  | nil => exact Or.inl rfl
  | cons c t ih =>
    cases hpc : p c with
    | true => simpa [List.dropWhile_cons, hpc] using ih
    | false => exact Or.inr ⟨c, t, by simp [List.dropWhile_cons, hpc], hpc⟩

/-- If stripping leaves nothing, everything was whitespace. -/
theorem pyStripL_eq_nil (l : List Char) (h : pyStripL l = []) :
    ∀ c ∈ l, isPySpace c = true := by
  unfold pyStripL at h
  rw [List.reverse_eq_nil_iff, List.dropWhile_eq_nil_iff] at h
  intro c hc
  rw [← List.takeWhile_append_dropWhile (p := isPySpace) (l := l)] at hc
  rcases List.mem_append.mp hc with hc | hc
  · exact List.mem_takeWhile_imp hc
  · exact h c (List.mem_reverse.mpr hc)

/-- A non-empty stripped list contains a non-whitespace character. -/
theorem pyStripL_has_nonspace (l : List Char) (h : pyStripL l ≠ []) :
    ∃ c ∈ pyStripL l, isPySpace c = false := by
  unfold pyStripL at h ⊢
  rcases dropWhile_head_false isPySpace (l.dropWhile isPySpace).reverse with h0 | ⟨c, t, h0, hns⟩
  · exact absurd (by rw [h0]; rfl) h
  · exact ⟨c, by rw [h0]; exact List.mem_reverse.mpr (by simp), hns⟩

/-- Stripping an already stripped non-empty string keeps it non-empty. -/
theorem pyStripS_pyStripS_ne_empty (s : String) (h : pyStripS s ≠ "") :
    pyStripS (pyStripS s) ≠ "" := by
  intro hc
  have hd : pyStripL (pyStripL s.data) = [] := (string_eq_empty_iff _).mp hc
  have hne : pyStripL s.data ≠ [] := by
    intro h0
    exact h ((string_eq_empty_iff _).mpr h0)
  obtain ⟨c, hmem, hns⟩ := pyStripL_has_nonspace s.data hne
  have := pyStripL_eq_nil (pyStripL s.data) hd c hmem
  rw [this] at hns
  cases hns

/-- Tier thresholds, spelled out with their exact boundaries. -/
theorem tierOf_spec (s : Nat) :
    (tierOf s = Tier.Reject ↔ s < 50) ∧
    (tierOf s = Tier.Caution ↔ 50 ≤ s ∧ s < 70) ∧
    (tierOf s = Tier.Strong ↔ 70 ≤ s) := by
  by_cases h1 : s < 50
  · have ht : tierOf s = Tier.Reject := by unfold tierOf; rw [if_pos h1]
    rw [ht]
    exact ⟨⟨fun _ => h1, fun _ => rfl⟩,
      ⟨fun h => absurd h (by decide), fun h => absurd h.1 (by omega)⟩,
      ⟨fun h => absurd h (by decide), fun h => absurd h (by omega)⟩⟩
  · by_cases h2 : s < 70
    · have ht : tierOf s = Tier.Caution := by unfold tierOf; rw [if_neg h1, if_pos h2]
      rw [ht]
      exact ⟨⟨fun h => absurd h (by decide), fun h => absurd h h1⟩,
        ⟨fun _ => ⟨by omega, h2⟩, fun _ => rfl⟩,
        ⟨fun h => absurd h (by decide), fun h => absurd h (by omega)⟩⟩
    · have ht : tierOf s = Tier.Strong := by unfold tierOf; rw [if_neg h1, if_neg h2]
      rw [ht]
      exact ⟨⟨fun h => absurd h (by decide), fun h => absurd h h1⟩,
        ⟨fun h => absurd h (by decide), fun h => absurd h.2 h2⟩,
        ⟨fun _ => by omega, fun _ => rfl⟩⟩

/-- When the service raises on every attempt, the retry loop returns the
literal failure marker, whatever the remaining model list. -/
theorem callGptAux_all_fail (g : GptOracle) (prompt : String)
    (h : ∀ i m p, g i m p = none) :
    ∀ i ms, callGptAux g prompt i ms = "⚠️ GPT processing failed." := by
  intro i ms
  induction ms generalizing i with
  | nil => rfl
  | cons m rest ih => simp [callGptAux, h, ih]

/-- Every value of the retry loop is either the failure marker or a stripped
service response. -/
theorem callGptAux_cases (g : GptOracle) (prompt : String) :
    ∀ i ms, callGptAux g prompt i ms = "⚠️ GPT processing failed." ∨
      ∃ c, callGptAux g prompt i ms = pyStripS c := by
  intro i ms
  induction ms generalizing i with
  | nil => exact Or.inl rfl
  | cons m rest ih =>
    unfold callGptAux
    cases hg : g i m prompt with
    | some content => exact Or.inr ⟨content, rfl⟩
    | none => exact ih (i + 1)

/-- Characterisation of a successful table-extractor loop: the returned name
is the title-cased form of some stripped captured value with 2–4 tokens. -/
theorem acceptName_some (ms : List (List Char)) (n : String)
    (h : acceptName ms = some n) :
    ∃ m ∈ ms, 2 ≤ (pySplitWS (pyStripS ⟨m⟩).data).length ∧
      (pySplitWS (pyStripS ⟨m⟩).data).length ≤ 4 ∧ n = pyTitleS (pyStripS ⟨m⟩) := by
  induction ms with
  | nil => cases h
  | cons m rest ih =>
    unfold acceptName at h
    split at h
    · refine ⟨m, by simp, ?_, ?_, ?_⟩
      · next hcond =>
          simp only [Bool.and_eq_true, decide_eq_true_eq] at hcond
          exact hcond.1
      · next hcond =>
          simp only [Bool.and_eq_true, decide_eq_true_eq] at hcond
          exact hcond.2
      · exact (Option.some_inj.mp h).symm
    · obtain ⟨m2, hm2, h2, h4, heq⟩ := ih h
      exact ⟨m2, List.mem_cons_of_mem _ hm2, h2, h4, heq⟩

/-- A successful table extraction is never the empty string. -/
theorem fromTable_some_ne_empty (text n : String)
    (h : extract_candidate_name_from_table text = some n) : n ≠ "" := by
  obtain ⟨m, _, h2, _, heq⟩ := acceptName_some _ _ h
  refine heq ▸ pyTitleS_ne_empty _ ?_
  intro hc
  rw [string_eq_empty_iff] at hc
  rw [hc] at h2
  simp [pySplitWS, pySplitWSAux] at h2

/-- Python `or` with a non-empty right operand never yields the empty
string. -/
theorem pyOr_ne_empty (a : Option String) (b : String) (hb : b ≠ "") :
    pyOr a b ≠ "" := by
  cases a with
  | none => exact hb
  | some s =>
    show (if (s == "") = true then b else s) ≠ ""
    by_cases hs : s = ""
    · rw [if_pos (by simp [hs])]
      exact hb
    · rw [if_neg (by simp [hs])]
      exact hs

/-- Python `or` short-circuits on a truthy (non-empty) left operand. -/
theorem pyOr_some (s : String) (b : String) (hs : s ≠ "") : pyOr (some s) b = s := by
  simp [pyOr, hs]

/-- The GPT name filter never yields the empty string when fed a value the
retry loop can actually produce (the failure marker or a stripped response). -/
theorem gptNameFilter_ne_empty (name : String)
    (hcase : name = "⚠️ GPT processing failed." ∨ ∃ c, name = pyStripS c) :
    gptNameFilter name ≠ "" := by
  unfold gptNameFilter
  split
  · decide
  · next hcond =>
    have h1 : name ≠ "" := by
      intro he
      apply hcond
      simp [he]
    rcases hcase with hm | ⟨c, hc⟩
    · rw [hm]
      decide
    · rw [hc]
      exact pyTitleS_ne_empty _ (pyStripS_pyStripS_ne_empty c (hc ▸ h1))

/-- The GPT last resort never yields the empty string. -/
theorem improved_ne_empty (g : GptOracle) (text filename : String) :
    improved_extract_candidate_name g text filename ≠ "" := by
  unfold improved_extract_candidate_name
  exact gptNameFilter_ne_empty _ (callGptAux_cases g (namePrompt text) 0 models)

/-- Documents whose identifier was already processed are skipped. -/
theorem processDoc_skip_mem (g : GptOracle) (jd : String) (st : SessionState)
    (d : Document) (h : d.name ∈ st.processed_resumes) : processDoc g jd st d = st := by
  unfold processDoc
  rw [if_pos h]

/-- Documents with empty extracted text are skipped. -/
theorem processDoc_skip_empty (g : GptOracle) (jd : String) (st : SessionState)
    (d : Document) (h : d.text = "") : processDoc g jd st d = st := by
  unfold processDoc
  by_cases hm : d.name ∈ st.processed_resumes
  · rw [if_pos hm]
  · rw [if_neg hm, if_pos h]

/-- A fresh document with non-empty text appends exactly one record, one
summary row, and its identifier. -/
theorem processDoc_run (g : GptOracle) (jd : String) (st : SessionState)
    (d : Document) (h1 : d.name ∉ st.processed_resumes) (h2 : d.text ≠ "") :
    processDoc g jd st d =
      { results := st.results ++
          [⟨extract_candidate_name g d.text d.name, extract_email d.text,
            parseScoreNum (compare_resume g jd d.text (extract_candidate_name g d.text d.name)),
            compare_resume g jd d.text (extract_candidate_name g d.text d.name), d.text⟩],
        processed_resumes := d.name :: st.processed_resumes,
        summary := st.summary ++
          [⟨extract_candidate_name g d.text d.name, extract_email d.text,
            parseScoreNum (compare_resume g jd d.text (extract_candidate_name g d.text d.name))⟩] } := by
  unfold processDoc
  rw [if_neg h1, if_neg h2]

/-- Unfolding one step of the batch loop. -/
theorem processBatch_cons (g : GptOracle) (jd : String) (st : SessionState)
    (d : Document) (ds : List Document) :
    processBatch g jd st (d :: ds) = processBatch g jd (processDoc g jd st d) ds := rfl

/-- The processed-identifier set only grows. -/
theorem processBatch_processed_mono (g : GptOracle) (jd : String) (docs : List Document) :
    ∀ st : SessionState, st.processed_resumes ⊆ (processBatch g jd st docs).processed_resumes := by
  induction docs with
  | nil => exact fun st x hx => hx
  | cons d ds ih =>
    intro st
    have hmono : st.processed_resumes ⊆ (processDoc g jd st d).processed_resumes := by
      unfold processDoc
      split
      · exact fun x hx => hx
      · split
        · exact fun x hx => hx
        · exact fun x hx => List.mem_cons_of_mem _ hx
    exact fun x hx => ih (processDoc g jd st d) (hmono hx)

/-- After a batch, every document of the batch either had empty text or has
its identifier in the processed set. -/
theorem processBatch_covers (g : GptOracle) (jd : String) (docs : List Document) :
    ∀ st : SessionState, ∀ d ∈ docs,
      d.text = "" ∨ d.name ∈ (processBatch g jd st docs).processed_resumes := by
  induction docs with
  | nil => intro st d hd; cases hd
  | cons d0 ds ih =>
    intro st d hd
    rcases List.mem_cons.mp hd with heq | hmem
    · subst heq
      by_cases ht : d.text = ""
      · exact Or.inl ht
      · right
        rw [processBatch_cons]
        apply processBatch_processed_mono
        by_cases hm : d.name ∈ st.processed_resumes
        · rw [processDoc_skip_mem g jd st d hm]; exact hm
        · rw [processDoc_run g jd st d hm ht]; exact List.mem_cons_self _ _
    · rw [processBatch_cons]
      exact ih (processDoc g jd st d0) d hmem

/-- A batch in which every document is either empty-texted or already
processed leaves the state untouched. -/
theorem processBatch_noop (g : GptOracle) (jd : String) (docs : List Document) :
    ∀ st : SessionState, (∀ d ∈ docs, d.text = "" ∨ d.name ∈ st.processed_resumes) →
      processBatch g jd st docs = st := by
  induction docs with
  | nil => intro st _; rfl
  | cons d0 ds ih =>
    intro st h
    rw [processBatch_cons]
    have h0 : processDoc g jd st d0 = st := by
      rcases h d0 (List.mem_cons_self _ _) with ht | hm
      · exact processDoc_skip_empty g jd st d0 ht
      · exact processDoc_skip_mem g jd st d0 hm
    rw [h0]
    exact ih st (fun d hd => h d (List.mem_cons_of_mem _ hd))

/-! ## Claims -/

/-- Claim C1 (amended).  The tier of a parsed score is Reject exactly below
50, Caution exactly in `[50, 70)` and Strong exactly from 70, and a raw model
text whose first `SCORE_RE` match captures 57 parses to `(57, Caution)`.  The
amendment: because `re.search` takes the leftmost match, merely containing
the token `"Score: 57%"` does not suffice when an earlier score token
occurs. -/
theorem claim_C1_amended :
    (∀ raw : String, scoreSearchS raw = some 57 → parseScore raw = (57, Tier.Caution)) ∧
    (∀ raw : String,
      ((parseScore raw).2 = Tier.Reject ↔ (parseScore raw).1 < 50) ∧
      ((parseScore raw).2 = Tier.Caution ↔ 50 ≤ (parseScore raw).1 ∧ (parseScore raw).1 < 70) ∧
      ((parseScore raw).2 = Tier.Strong ↔ 70 ≤ (parseScore raw).1)) := by
  constructor
  · intro raw h
    have h1 : parseScoreNum raw = 57 := by
      unfold parseScoreNum
      rw [h]
      decide
    unfold parseScore
    rw [h1]
    decide
  · intro raw
    exact tierOf_spec (parseScoreNum raw)

/-- Claim C1, refuting instance: a text containing `"Score: 57%"` whose
earlier score token wins, so the result is `(30, Reject)`, not
`(57, Caution)`. -/
theorem claim_C1_counterexample :
    hasInfixS "Score: 30%\nScore: 57%" "Score: 57%" = true ∧
    parseScore "Score: 30%\nScore: 57%" = (30, Tier.Reject) ∧
    parseScore "Score: 30%\nScore: 57%" ≠ (57, Tier.Caution) :=
  ⟨by decide, by decide, by decide⟩

/-- Claim C1, witness: the amended theorem applied at concrete inputs. -/
theorem claim_C1_witness :
    parseScore "✅ Score: 57%" = (57, Tier.Caution) ∧
    ((parseScore "ok").2 = Tier.Reject ↔ (parseScore "ok").1 < 50) :=
  ⟨claim_C1_amended.1 "✅ Score: 57%" (by decide), (claim_C1_amended.2 "ok").1⟩

/-- Claim C2 (amended).  Every parsed score lies in `[0, 100]` (it is a
natural number bounded by 100), and whenever the first `SCORE_RE` match
captures a number of at least 100 the result is clamped to `(100, Strong)`.
The amendment: as in C1, merely containing `"Score: 150%"` does not suffice
when an earlier score token occurs. -/
theorem claim_C2_amended :
    (∀ raw : String, (parseScore raw).1 ≤ 100) ∧
    (∀ (raw : String) (n : Nat), scoreSearchS raw = some n → 100 ≤ n →
      parseScore raw = (100, Tier.Strong)) := by
  constructor
  · intro raw
    show parseScoreNum raw ≤ 100
    unfold parseScoreNum
    split
    · exact Nat.max_le.mpr ⟨Nat.zero_le _, Nat.min_le_left _ _⟩
    · exact Nat.zero_le 100
  · intro raw n h hn
    have h1 : parseScoreNum raw = 100 := by
      unfold parseScoreNum
      rw [h]
      show max 0 (min 100 n) = 100
      rw [Nat.min_eq_left hn]
      decide
    unfold parseScore
    rw [h1]
    decide

/-- Claim C2, refuting instance: a text containing `"Score: 150%"` whose
earlier score token wins, so the result is `(20, Reject)`, not
`(100, Strong)`. -/
theorem claim_C2_counterexample :
    hasInfixS "Score: 20%\nScore: 150%" "Score: 150%" = true ∧
    parseScore "Score: 20%\nScore: 150%" = (20, Tier.Reject) ∧
    parseScore "Score: 20%\nScore: 150%" ≠ (100, Tier.Strong) :=
  ⟨by decide, by decide, by decide⟩

/-- Claim C2, witness: the amended theorem applied at concrete inputs. -/
theorem claim_C2_witness :
    parseScore "Score: 150%" = (100, Tier.Strong) ∧ (parseScore "abc").1 ≤ 100 :=
  ⟨claim_C2_amended.2 "Score: 150%" 150 (by decide) (by decide),
   claim_C2_amended.1 "abc"⟩

/-- Claim C4 (confirmed).  When the service raises on every configured
attempt, `call_gpt_with_fallback` returns the literal failure marker instead
of raising, and the record appended for a fresh non-empty document then has
score 0, tier Reject, and rationale text equal to that marker. -/
theorem claim_C4 (g : GptOracle) (h : ∀ i m p, g i m p = none) :
    (∀ prompt, call_gpt_with_fallback g prompt = "⚠️ GPT processing failed.") ∧
    (∀ (jd : String) (st : SessionState) (d : Document),
      d.name ∉ st.processed_resumes → d.text ≠ "" →
      ∃ r : CandidateRecord,
        (processDoc g jd st d).results = st.results ++ [r] ∧
        r.score = 0 ∧ tierOf r.score = Tier.Reject ∧
        r.result = "⚠️ GPT processing failed.") := by
  have hm : ∀ prompt, call_gpt_with_fallback g prompt = "⚠️ GPT processing failed." :=
    fun prompt => callGptAux_all_fail g prompt h 0 models
  have hcr : ∀ jd resume name, compare_resume g jd resume name = "⚠️ GPT processing failed." :=
    fun jd resume name => hm (comparePrompt jd resume name)
  refine ⟨hm, ?_⟩
  intro jd st d h1 h2
  rw [processDoc_run g jd st d h1 h2]
  refine ⟨_, rfl, ?_, ?_, ?_⟩
  · show parseScoreNum (compare_resume g jd d.text _) = 0
    rw [hcr]
    decide
  · show tierOf (parseScoreNum (compare_resume g jd d.text _)) = Tier.Reject
    rw [hcr]
    decide
  · exact hcr jd d.text _

/-- Claim C4, witness: the theorem applied to the always-failing service and
a concrete fresh document. -/
theorem claim_C4_witness :
    call_gpt_with_fallback oracleDown "any prompt" = "⚠️ GPT processing failed." ∧
    ∃ r : CandidateRecord,
      (processDoc oracleDown "the jd" initialState ⟨"cv.txt", "resume body"⟩).results =
        (initialState : SessionState).results ++ [r] ∧
      r.score = 0 ∧ tierOf r.score = Tier.Reject ∧
      r.result = "⚠️ GPT processing failed." :=
  ⟨(claim_C4 oracleDown (fun _ _ _ => rfl)).1 "any prompt",
   (claim_C4 oracleDown (fun _ _ _ => rfl)).2 "the jd" initialState
     ⟨"cv.txt", "resume body"⟩ (by decide) (by decide)⟩

/-- Claim C9 (confirmed).  For every oracle behaviour, input text and
fallback filename — including empty or signal-free text — the name cascade
returns a non-empty string (and, being a total Lean function, it cannot
raise). -/
theorem claim_C9 (g : GptOracle) (text filename : String) :
    extract_candidate_name g text filename ≠ "" := by
  unfold extract_candidate_name
  exact pyOr_ne_empty _ _ (pyOr_ne_empty _ _ (improved_ne_empty g text filename))

/-- Claim C10 (confirmed).  When the table and footer stages miss and every
service attempt fails, the cascade returns the title-cased failure marker
`"⚠️ Gpt Processing Failed."` as the display name — the marker passes the
GPT-name filter (at most 5 tokens, no suspicious word, no `@`, and it does
not start with `"name not found"`), so the sentinel is not used. -/
theorem claim_C10 (g : GptOracle) (text filename : String)
    (hg : ∀ i m p, g i m p = none)
    (ht : extract_candidate_name_from_table text = none)
    (hf : extract_candidate_name_from_footer text = none) :
    extract_candidate_name g text filename = "⚠️ Gpt Processing Failed." ∧
    extract_candidate_name g text filename ≠ "Name Not Found" := by
  have himp : improved_extract_candidate_name g text filename = "⚠️ Gpt Processing Failed." := by
    unfold improved_extract_candidate_name
    rw [show call_gpt_with_fallback g (namePrompt text) = "⚠️ GPT processing failed." from
      callGptAux_all_fail g (namePrompt text) hg 0 models]
    decide
  have hres : extract_candidate_name g text filename = "⚠️ Gpt Processing Failed." := by
    unfold extract_candidate_name
    rw [ht, hf]
    exact himp
  exact ⟨hres, by rw [hres]; decide⟩

/-- Claim C10, witness: the theorem applied to the always-failing service and
a signal-free text. -/
theorem claim_C10_witness :
    extract_candidate_name oracleDown "just some body text with no signal" "cv.pdf" =
      "⚠️ Gpt Processing Failed." ∧
    extract_candidate_name oracleDown "just some body text with no signal" "cv.pdf" ≠
      "Name Not Found" :=
  claim_C10 oracleDown "just some body text with no signal" "cv.pdf"
    (fun _ _ _ => rfl) (by decide) (by decide)

/-- Claim C3 (amended).  When the labelled-field stage succeeds, its result
is returned unchanged regardless of the oracle or any later cascade stage;
in particular a `"Candidate Name: X"` line with a 2–4-token value yields `X`
title-cased.  The amendment: the only inline label the code matches is
`"Candidate Name"` (plus `"Resume of"` in the footer stage); a plain
`"Name: X"` line matches no content strategy and falls through to the GPT
last resort, whose result depends on the oracle. -/
theorem claim_C3_amended :
    (∀ (g : GptOracle) (text filename n : String),
      extract_candidate_name_from_table text = some n →
      extract_candidate_name g text filename = n) ∧
    (∀ (g : GptOracle) (filename : String),
      extract_candidate_name g "Candidate Name: jane doe" filename = "Jane Doe") := by
  have h1 : ∀ (g : GptOracle) (text filename n : String),
      extract_candidate_name_from_table text = some n →
      extract_candidate_name g text filename = n := by
    intro g text filename n h
    unfold extract_candidate_name
    rw [h]
    exact pyOr_some n _ (fromTable_some_ne_empty text n h)
  exact ⟨h1, fun g filename => h1 g _ filename "Jane Doe" (by decide)⟩

/-- Claim C3, refuting instance: the well-formed labelled line
`"Name: Jane Doe"` (two tokens, no disqualifier) is not matched by any
content stage, and under a failing oracle the cascade returns the title-cased
failure marker instead of `"Jane Doe"`. -/
theorem claim_C3_counterexample :
    extract_candidate_name oracleDown "Name: Jane Doe" "cv.pdf" =
      "⚠️ Gpt Processing Failed." ∧
    extract_candidate_name oracleDown "Name: Jane Doe" "cv.pdf" ≠ "Jane Doe" :=
  ⟨by decide, by decide⟩

/-- Claim C3, witness: the amended theorem applied at a concrete labelled
line. -/
theorem claim_C3_witness :
    extract_candidate_name oracleDown "Candidate Name: jane doe" "cv.pdf" = "Jane Doe" :=
  claim_C3_amended.1 oracleDown "Candidate Name: jane doe" "cv.pdf" "Jane Doe" (by decide)

/-- Claim C7 (amended).  The fallback filename never influences the cascade
result, and when no content strategy matches the result is the GPT last
resort: either the sentinel `"Name Not Found"` or the stripped, title-cased
service answer.  The amendment: the code has no filename-derived fallback at
all — `improved_extract_candidate_name` accepts the filename but ignores
it. -/
theorem claim_C7_amended :
    (∀ (g : GptOracle) (text fn1 fn2 : String),
      extract_candidate_name g text fn1 = extract_candidate_name g text fn2) ∧
    (∀ (g : GptOracle) (text fn : String),
      extract_candidate_name_from_table text = none →
      extract_candidate_name_from_footer text = none →
      extract_candidate_name g text fn = "Name Not Found" ∨
      extract_candidate_name g text fn =
        pyTitleS (pyStripS (call_gpt_with_fallback g (namePrompt text)))) := by
  constructor
  · intro g text fn1 fn2
    rfl
  · intro g text fn ht hf
    unfold extract_candidate_name
    rw [ht, hf]
    show gptNameFilter (call_gpt_with_fallback g (namePrompt text)) = _ ∨
      gptNameFilter (call_gpt_with_fallback g (namePrompt text)) = _
    unfold gptNameFilter
    split
    · exact Or.inl rfl
    · exact Or.inr rfl

/-- Claim C7, refuting instance: with empty text and the fallback filename
`"john_smith.pdf"`, a filename fallback would produce `"John Smith"`; the
code instead returns the title-cased failure marker under a failing oracle —
neither a filename-derived name nor the sentinel. -/
theorem claim_C7_counterexample :
    extract_candidate_name oracleDown "" "john_smith.pdf" =
      "⚠️ Gpt Processing Failed." ∧
    extract_candidate_name oracleDown "" "john_smith.pdf" ≠ "John Smith" ∧
    extract_candidate_name oracleDown "" "john_smith.pdf" ≠ "Name Not Found" :=
  ⟨by decide, by decide, by decide⟩

/-- Claim C7, witness: the amended theorem applied at a signal-free text. -/
theorem claim_C7_witness :
    extract_candidate_name oracleDown "plain body" "a.pdf" = "Name Not Found" ∨
    extract_candidate_name oracleDown "plain body" "a.pdf" =
      pyTitleS (pyStripS (call_gpt_with_fallback oracleDown (namePrompt "plain body"))) :=
  claim_C7_amended.2 oracleDown "plain body" "a.pdf" (by decide) (by decide)

/-- Claim C8 (amended).  The labelled-field stage accepts a captured value
exactly under the 2–4-token rule: every returned name is the title-cased form
of a stripped captured value with 2–4 whitespace-separated tokens.  The
amendment: the stage applies no disqualifier filtering at all, so values
containing job-title words such as `"Engineer"` or `"Developer"` are accepted
(only the GPT last resort has a suspicious-word filter). -/
theorem claim_C8_amended :
    (∀ text n : String, extract_candidate_name_from_table text = some n →
      ∃ v : String, n = pyTitleS v ∧
        2 ≤ (pySplitWS v.data).length ∧ (pySplitWS v.data).length ≤ 4) ∧
    extract_candidate_name_from_table "Candidate Name: mary developer" =
      some "Mary Developer" := by
  constructor
  · intro text n h
    obtain ⟨m, _, h2, h4, heq⟩ := acceptName_some _ _ h
    exact ⟨pyStripS ⟨m⟩, heq, h2, h4⟩
  · decide

/-- Claim C8, refuting instance: a captured value containing the job-title
word `"Engineer"` is returned by the labelled-field stage. -/
theorem claim_C8_counterexample :
    extract_candidate_name_from_table "Candidate Name: John Engineer" =
      some "John Engineer" ∧
    hasInfixS "John Engineer" "Engineer" = true :=
  ⟨by decide, by decide⟩

/-- Claim C8, witness: the amended theorem applied at a concrete labelled
line. -/
theorem claim_C8_witness :
    ∃ v : String, "John Doe" = pyTitleS v ∧
      2 ≤ (pySplitWS v.data).length ∧ (pySplitWS v.data).length ≤ 4 :=
  claim_C8_amended.1 "Candidate Name: john doe" "John Doe" (by decide)

/-- Claim C5 (amended).  Re-submitting an already-processed identifier is a
no-op for that document; re-running a whole batch leaves the session state
unchanged whatever the jd text or oracle of the second run (so the service is
not re-invoked); and two same-identifier documents in one batch produce
exactly one record provided the first has non-empty extracted text.  The
amendment: a document with empty extracted text produces no record at all, so
`"exactly one"` needs the non-empty-text proviso. -/
theorem claim_C5_amended :
    (∀ (g : GptOracle) (jd : String) (st : SessionState) (d : Document),
      d.name ∈ st.processed_resumes → processDoc g jd st d = st) ∧
    (∀ (g g' : GptOracle) (jd jd' : String) (st : SessionState) (docs : List Document),
      processBatch g' jd' (processBatch g jd st docs) docs = processBatch g jd st docs) ∧
    (∀ (g : GptOracle) (jd : String) (d1 d2 : Document),
      d1.name = d2.name → d1.text ≠ "" →
      ((processBatch g jd initialState [d1, d2]).results).length = 1) := by
  refine ⟨processDoc_skip_mem, ?_, ?_⟩
  · intro g g' jd jd' st docs
    exact processBatch_noop g' jd' docs _ (fun d hd => processBatch_covers g jd docs st d hd)
  · intro g jd d1 d2 hname htext
    have h1 : d1.name ∉ (initialState : SessionState).processed_resumes := by
      simp [initialState]
    show ((processDoc g jd (processDoc g jd initialState d1) d2).results).length = 1
    rw [processDoc_run g jd initialState d1 h1 htext]
    rw [processDoc_skip_mem g jd _ d2 (by rw [← hname]; exact List.mem_cons_self _ _)]
    simp [initialState]

/-- Claim C5, witness: the amended theorem applied to a duplicated
identifier, a re-run batch and an already-processed document. -/
theorem claim_C5_witness :
    ((processBatch oracleDown "the jd" initialState
        [⟨"a.txt", "hello there"⟩, ⟨"a.txt", "different body"⟩]).results).length = 1 ∧
    processBatch oracleDown "jd2"
        (processBatch oracleDown "the jd" initialState [⟨"b.txt", "x"⟩]) [⟨"b.txt", "x"⟩] =
      processBatch oracleDown "the jd" initialState [⟨"b.txt", "x"⟩] ∧
    processDoc oracleDown "the jd" ⟨[], ["c.txt"], []⟩ ⟨"c.txt", "body"⟩ = ⟨[], ["c.txt"], []⟩ :=
  ⟨claim_C5_amended.2.2 oracleDown "the jd" ⟨"a.txt", "hello there"⟩
      ⟨"a.txt", "different body"⟩ rfl (by decide),
   claim_C5_amended.2.1 oracleDown oracleDown "the jd" "jd2" initialState [⟨"b.txt", "x"⟩],
   claim_C5_amended.1 oracleDown "the jd" ⟨[], ["c.txt"], []⟩ ⟨"c.txt", "body"⟩ (by decide)⟩

/-- Claim C6 (amended).  A fresh document with non-empty extracted text
appends exactly one record (possibly degraded), and the pipeline (a total
function folding document by document) cannot abort the batch; but a document
with empty extracted text is skipped entirely — no record is appended.  The
amendment: a missing record is possible, exactly for empty-text documents. -/
theorem claim_C6_amended :
    (∀ (g : GptOracle) (jd : String) (st : SessionState) (d : Document),
      d.name ∉ st.processed_resumes → d.text ≠ "" →
      ∃ r : CandidateRecord, (processDoc g jd st d).results = st.results ++ [r]) ∧
    (∀ (g : GptOracle) (jd : String) (st : SessionState) (d : Document),
      d.text = "" → processDoc g jd st d = st) := by
  constructor
  · intro g jd st d h1 h2
    rw [processDoc_run g jd st d h1 h2]
    exact ⟨_, rfl⟩
  · exact processDoc_skip_empty

/-- Claim C6, refuting instance: a document with an unprocessed identifier
but empty extracted text yields no record at all — the batch result list
stays empty. -/
theorem claim_C6_counterexample :
    "broken.doc" ∉ (initialState : SessionState).processed_resumes ∧
    (processBatch oracleDown "the jd" initialState [⟨"broken.doc", ""⟩]).results = [] :=
  ⟨by decide, by decide⟩

/-- Claim C6, witness: the amended theorem applied to a fresh non-empty
document and to an empty-text document. -/
theorem claim_C6_witness :
    (∃ r : CandidateRecord,
      (processDoc oracleDown "the jd" initialState ⟨"d.txt", "some text"⟩).results =
        (initialState : SessionState).results ++ [r]) ∧
    processDoc oracleDown "the jd" initialState ⟨"e.doc", ""⟩ = initialState :=
  ⟨claim_C6_amended.1 oracleDown "the jd" initialState ⟨"d.txt", "some text"⟩
      (by decide) (by decide),
   claim_C6_amended.2 oracleDown "the jd" initialState ⟨"e.doc", ""⟩ rfl⟩

/-- Claim C5, refuting instance: two documents sharing one identifier but
carrying empty extracted text produce zero records, not exactly one. -/
theorem claim_C5_counterexample :
    ((processBatch oracleDown "the jd" initialState
        [⟨"dup.doc", ""⟩, ⟨"dup.doc", ""⟩]).results).length = 0 := by
  decide
